import Mathlib

/-!
Shallow embedding of the SGF property-converter layer of the clamshell
repository (core/prop/converter_list.go), together with the external
collaborator types the converters consume (movetree.Node,
movetree.GameInfo, color.Color, move.Move). The collaborators are not part
of the source tree being verified, so they are modelled from the
specification and carry doc comments saying so.

Modelling conventions:
* A decode call (a From closure) mutates a Go node through a pointer and
  returns an error value. It is embedded as a function from the node and
  the raw values to a GoOutcome, which records the resulting node on
  success, the error message together with the node state left behind on
  failure, and a crash for a Go runtime panic (a nil or out-of-range
  access). An encode call (a To closure) is pure and is embedded as a
  function into Except.
* Go float64 komi values are modelled as exact rationals. Every komi value
  the claims exercise (multiples of one half of small magnitude) is exactly
  representable in float64, where the rational model and the binary model
  agree; decimal strings are parsed exactly, without binary rounding.
* Go error strings are reproduced from the fmt.Errorf format strings; the
  formatted operands that do not matter to any claim (the underlying
  strconv error text, the %v rendering of a slice, the %f rendering of a
  float) are abbreviated, keeping the error categories distinct.
-/

namespace Clamshell

/-- Modelled from the spec: color.Color is a short string constant; the
empty string is the unspecified state (string-typed color enum, spec
section 9). -/
abbrev Color := String

/-- Modelled from the spec: the black color constant. -/
def Black : Color := "B"

/-- Modelled from the spec: the white color constant. -/
def White : Color := "W"

/-- Modelled from the spec: color.FromSGFProp resolves the color implied by
a move or placement property code. -/
def FromSGFProp (prop : String) : Except String Color :=
  if prop = "B" ∨ prop = "AB" then Except.ok Black
  else if prop = "W" ∨ prop = "AW" then Except.ok White
  else Except.error ("unknown color for prop " ++ prop)

/-- Modelled from the spec: move.Move and a placement are a color together
with a point or a pass (point absent). -/
structure Move where
  color : Color
  point : Option (Nat × Nat)
  deriving DecidableEq

/-- Modelled from the spec: the external point type's textual SGF
coordinate encoding, one lowercase letter per axis; rendering fails when a
coordinate falls outside the letter range. -/
def pointToSGF (p : Nat × Nat) : Except String String :=
  if p.1 ≤ 25 ∧ p.2 ≤ 25 then
    Except.ok (String.mk [Char.ofNat (97 + p.1), Char.ofNat (97 + p.2)])
  else Except.error "point coordinate out of range"

/-- Coordinate value of a lowercase SGF letter. -/
def sgfCharCoord (c : Char) : Option Nat :=
  if 97 ≤ c.toNat ∧ c.toNat ≤ 122 then some (c.toNat - 97) else none

/-- Modelled from the spec: move.FromSGFPoint, the external move
constructor: the empty raw value denotes a pass, otherwise the value must
be a two-letter point coordinate. -/
def FromSGFPoint (col : Color) (s : String) : Except String Move :=
  if s = "" then Except.ok { color := col, point := none }
  else
    match s.data with
    | [c1, c2] =>
      match sgfCharCoord c1, sgfCharCoord c2 with
      | some x, some y => Except.ok { color := col, point := some (x, y) }
      | _, _ => Except.error ("invalid point " ++ s)
    | _ => Except.error ("invalid point " ++ s)

/-- Modelled from the spec: conversion of one raw placement value; a
placement always carries a real two-letter point coordinate. -/
def placementFromSGFPoint (col : Color) (s : String) : Except String Move :=
  match s.data with
  | [c1, c2] =>
    match sgfCharCoord c1, sgfCharCoord c2 with
    | some x, some y => Except.ok { color := col, point := some (x, y) }
    | _, _ => Except.error ("invalid point " ++ s)
  | _ => Except.error ("invalid point " ++ s)

/-- Modelled from the spec: move.ListFromSGFPoints converts each raw value
into a placement, failing if any raw point fails to parse. -/
def ListFromSGFPoints (col : Color) (data : List String) : Except String (List Move) :=
  data.mapM (placementFromSGFPoint col)

/-- Modelled from the spec: movetree.GameInfo, the root-level metadata
container. Size 0 is the unset sentinel, komi is optional (unset is
distinct from zero), the player color defaults to unspecified. -/
structure GameInfo where
  Size : Int := 0
  Komi : Option ℚ := none
  Player : Color := ""
  deriving DecidableEq

/-- Modelled from the spec: movetree.Node, the mutable game-tree node with
an optional single move, a growable ordered placement collection, and
lazily created GameInfo. -/
structure Node where
  Placements : List Move := []
  Move : Option Move := none
  GameInfo : Option GameInfo := none
  deriving DecidableEq

/-- A fresh node with no fields populated. -/
def emptyNode : Node := {}

/-- Outcome of a decode call: success with the updated node, a returned
error together with the node state the call left behind, or a Go runtime
crash. -/
inductive GoOutcome where
  | ok : Node → GoOutcome
  | err : String → Node → GoOutcome
  | crash : String → GoOutcome
  deriving DecidableEq

/-- Numeric value of a decimal digit character. -/
def digitVal (c : Char) : Option Nat :=
  if 48 ≤ c.toNat ∧ c.toNat ≤ 57 then some (c.toNat - 48) else none

/-- Folds a digit string into a natural number, failing on any non-digit
character; an empty list yields the accumulator. -/
def digitsAcc : List Char → Nat → Option Nat
  | [], acc => some acc
  | c :: cs, acc =>
    match digitVal c with
    | some d => digitsAcc cs (10 * acc + d)
    | none => none

/-- Value of a nonempty all-digit character list; none when empty or when
any character is not a digit. -/
def digitsToNat (cs : List Char) : Option Nat :=
  match cs with
  | [] => none
  | _ => digitsAcc cs 0

/-- Magnitude bound of a positive 64-bit Go int: 2 to the 63 minus 1. -/
def int64Max : Nat := 9223372036854775807

/-- Magnitude bound of a negative 64-bit Go int: 2 to the 63. -/
def int64NegMax : Nat := 9223372036854775808

/-- Model of Go strconv.Atoi: an optional sign followed by a nonempty
digit string, bounded to the 64-bit int range. Beyond int64 Go returns
ErrRange, and the board-size converter treats every strconv error alike
(the err-not-nil test at converter_list.go line 25 precedes any use of the
value), so overflow is modelled as a parse failure. -/
def Atoi (s : String) : Option Int :=
  match s.data with
  | '+' :: rest =>
    (digitsToNat rest).bind fun k =>
      if k ≤ int64Max then some (Int.ofNat k) else none
  | '-' :: rest =>
    (digitsToNat rest).bind fun k =>
      if k ≤ int64NegMax then some (-(Int.ofNat k)) else none
  | cs =>
    (digitsToNat cs).bind fun k =>
      if k ≤ int64Max then some (Int.ofNat k) else none

/-- Splits a character list at a single decimal dot; fails when more than
one dot is present. -/
def splitDot (cs : List Char) : Option (List Char × List Char) :=
  match cs.dropWhile (fun c => c ≠ '.') with
  | [] => some (cs.takeWhile (fun c => c ≠ '.'), [])
  | _ :: rest =>
    if rest.contains '.' then none
    else some (cs.takeWhile (fun c => c ≠ '.'), rest)

/-- Exact rational value of an unsigned decimal digit string with an
optional fractional part; at least one digit must be present. The value of
integer digits i and fractional digits f of length k is (i multiplied by
ten to the k, plus f) over ten to the k. -/
def parseUnsignedDec (cs : List Char) : Option ℚ :=
  match splitDot cs with
  | none => none
  | some (ip, fp) =>
    if ip = [] ∧ fp = [] then none
    else
      match digitsAcc ip 0, digitsAcc fp 0 with
      | some i, some f =>
        some (mkRat (Int.ofNat (i * 10 ^ fp.length + f)) (10 ^ fp.length))
      | _, _ => none

/-- Model of Go strconv.ParseFloat on plain decimal strings, as an exact
rational: an optional sign, then digits with an optional fractional part.
The komi values the claims exercise are multiples of one half of small
magnitude, which float64 represents exactly, so the rational model and the
float64 model coincide on them. -/
def ParseFloat (s : String) : Option ℚ :=
  match s.data with
  | '+' :: rest => parseUnsignedDec rest
  | '-' :: rest => (parseUnsignedDec rest).map (fun q => mkRat (-q.num) q.den)
  | cs => parseUnsignedDec cs

/-- Truncation toward zero: the integer part computed by Go math.Modf. -/
def qtrunc (q : ℚ) : Int := q.num.tdiv (q.den : Int)

/-- The fractional part returned by Go math.Modf: the argument minus its
truncation toward zero, so it carries the sign of the argument (for
example the fractional part of -0.5 is -0.5, not 0.5). Computed on the
reduced numerator and denominator: q minus t is (num - t den) / den. -/
def modfFrac (q : ℚ) : ℚ := mkRat (q.num - qtrunc q * (q.den : Int)) q.den

/-- Model of Go strconv.FormatFloat with fixed-point format and precision
one on the komi values that reach it: the encoder has already validated
that the Modf fractional part is exactly 0 or 0.5, so the value lies on
the tenths grid and the single rendered fractional digit is exact. The
digits are computed from the reduced numerator and denominator: the
integer part of the absolute value, a dot, then the tenths digit. -/
def formatFloat1 (q : ℚ) : String :=
  let sign := if q.num < 0 then "-" else ""
  let a := q.num.natAbs
  let ip := a / q.den
  let d := a * 10 / q.den % 10
  sign ++ toString ip ++ "." ++ toString d

/-- The board-size arity error (converter_list.go line 22; the doubled
space before the word must is present in the source format string). -/
def szArityErr (prop : String) (l : Nat) : String :=
  "for prop " ++ prop ++ ", data  must be exactly 1, was " ++ toString l

/-- The board-size integer-parse error (line 26; the underlying strconv
error text is abbreviated). -/
def szParseErr (prop : String) (v : String) : String :=
  "for prop " ++ prop ++ ", error parsing data [" ++ v ++ "] as integer"

/-- The board-size range error (line 29). -/
def szRangeErr (prop : String) (sz : Int) : String :=
  "for prop " ++ prop ++ ", size was " ++ toString sz ++ ", but must be between 1 and 25"

/-- Embedding of the SZ From closure (converter_list.go lines 20 to 37):
exactly one raw value, parsed as an integer, bounded to 1..25; GameInfo is
created lazily and its size field set. All checks precede the mutation, so
every failure leaves the node unchanged. -/
def SZ_From (n : Node) (prop : String) (data : List String) : GoOutcome :=
  match data with
  | [v] =>
    match Atoi v with
    | none => GoOutcome.err (szParseErr prop v) n
    | some sz =>
      if sz < 1 ∨ sz > 25 then GoOutcome.err (szRangeErr prop sz) n
      else GoOutcome.ok { n with GameInfo := some { n.GameInfo.getD {} with Size := sz } }
  | _ => GoOutcome.err (szArityErr prop data.length) n

/-- Embedding of the SZ To closure (lines 38 to 51): empty fragment when
GameInfo is absent or the size is the unset sentinel 0, an error outside
1..25, otherwise the bracketed decimal rendering. -/
def SZ_To (n : Node) : Except String String :=
  match n.GameInfo with
  | none => Except.ok ""
  | some gi =>
    if gi.Size = 0 then Except.ok ""
    else if gi.Size < 1 ∨ gi.Size > 25 then
      Except.error ("invalid board size: " ++ toString gi.Size ++
        ", but only values between 1 and 25 are allowed")
    else Except.ok ("SZ[" ++ toString gi.Size ++ "]")

/-- The rendering loop of the placement To closure (lines 76 to 86): an
order-preserving partition of the placement list into rendered black and
white point strings, failing at the first point that fails to render.
Placements built by ListFromSGFPoints always carry a point, so the
missing-point arm is unreachable from the decoders. -/
def renderPlacements : List Move → Except String (List String × List String)
  | [] => Except.ok ([], [])
  | mv :: rest =>
    match mv.point with
    | none => Except.error "placement has no point"
    | some p =>
      match pointToSGF p with
      | Except.error e => Except.error e
      | Except.ok s =>
        match renderPlacements rest with
        | Except.error e => Except.error e
        | Except.ok (b, w) =>
          if mv.color = Black then Except.ok (s :: b, w)
          else if mv.color = White then Except.ok (b, s :: w)
          else Except.ok (b, w)

/-- Bracketed concatenation of rendered point strings. -/
def bracketAll (ps : List String) : String :=
  String.join (ps.map (fun p => "[" ++ p ++ "]"))

/-- Embedding of the AB and AW From closure (lines 58 to 69): the color is
resolved from the code, every raw value is converted to a placement, and
the results are appended to (never replace) the node's placement
collection. -/
def AB_AW_From (n : Node) (prop : String) (data : List String) : GoOutcome :=
  match FromSGFProp prop with
  | Except.error e => GoOutcome.err e n
  | Except.ok col =>
    match ListFromSGFPoints col data with
    | Except.error e => GoOutcome.err e n
    | Except.ok moves => GoOutcome.ok { n with Placements := n.Placements ++ moves }

/-- Embedding of the AB and AW To closure (lines 70 to 101): empty fragment
for an empty collection; otherwise the black group (code and bracketed
points, only when nonempty) followed by the white group. -/
def AB_AW_To (n : Node) : Except String String :=
  if n.Placements = [] then Except.ok ""
  else
    match renderPlacements n.Placements with
    | Except.error e => Except.error e
    | Except.ok (black, white) =>
      Except.ok
        ((if black ≠ [] then "AB" else "") ++ bracketAll black ++
         (if white ≠ [] then "AW" else "") ++ bracketAll white)

/-- Embedding of the B and W From closure (lines 108 to 128). The duplicate
check precedes the arity check and the point parse, so a node already
holding a move rejects any further move property whatever the raw values.
Zero raw values are normalized to the empty-string sentinel before the
move constructor runs. -/
def B_W_From (n : Node) (prop : String) (data : List String) : GoOutcome :=
  match FromSGFProp prop with
  | Except.error e => GoOutcome.err e n
  | Except.ok col =>
    if n.Move.isSome then GoOutcome.err "found two moves on one node at move" n
    else if data.length ≠ 1 ∧ data.length ≠ 0 then
      GoOutcome.err "expected black move data to have exactly one value or zero values" n
    else
      match FromSGFPoint col (data.headD "") with
      | Except.error e => GoOutcome.err e n
      | Except.ok mv => GoOutcome.ok { n with Move := some mv }

/-- Embedding of the B and W To closure (lines 129 to 149): empty fragment
without a move; a pass renders as the code with empty brackets; otherwise
the code with the bracketed point coordinate. -/
def B_W_To (n : Node) : Except String String :=
  match n.Move with
  | none => Except.ok ""
  | some mv =>
    let col := if mv.color = Black then "B" else if mv.color = White then "W" else ""
    match mv.point with
    | none => Except.ok (col ++ "[]")
    | some p =>
      match pointToSGF p with
      | Except.error e => Except.error e
      | Except.ok s => Except.ok (col ++ "[" ++ s ++ "]")

/-- The komi fractional-part error (line 163; the formatted value is
abbreviated). -/
def kmFracErr : String :=
  "for prop KM, the only decimal-value allowed for komi is .0 or .5"

/-- Embedding of the KM From closure (lines 156 to 172). The source reads
the first raw value without checking the length, so an empty raw-value
list is a runtime index-out-of-range crash, not a returned error. The
fractional-part test mirrors Go math.Modf, whose result carries the sign
of its argument. -/
def KM_From (n : Node) (data : List String) : GoOutcome :=
  match data with
  | [] => GoOutcome.crash "runtime error: index out of range [0] with length 0"
  | v :: _ =>
    match ParseFloat v with
    | none => GoOutcome.err ("parsing " ++ v ++ ": invalid syntax") n
    | some komi =>
      if ¬ (modfFrac komi = mkRat 1 2 ∨ modfFrac komi = mkRat 0 1) then
        GoOutcome.err kmFracErr n
      else GoOutcome.ok { n with GameInfo := some { n.GameInfo.getD {} with Komi := some komi } }

/-- Embedding of the KM To closure (lines 173 to 187): empty fragment when
GameInfo is absent or komi unset; the fractional-part rule is re-validated
defensively; otherwise the value renders with exactly one digit after the
decimal point. -/
def KM_To (n : Node) : Except String String :=
  match n.GameInfo with
  | none => Except.ok ""
  | some gi =>
    match gi.Komi with
    | none => Except.ok ""
    | some komi =>
      if ¬ (modfFrac komi = mkRat 1 2 ∨ modfFrac komi = mkRat 0 1) then
        Except.error "invalid komi: the only decimal-value allowed for komi is .0 or .5"
      else Except.ok ("KM[" ++ formatFloat1 komi ++ "]")

/-- Embedding of the PL From closure (lines 194 to 213). GameInfo is
created before the raw value is inspected, so an invalid value leaves the
node with a fresh empty GameInfo behind the returned error; the arity
check, by contrast, runs before the creation. -/
def PL_From (n : Node) (data : List String) : GoOutcome :=
  match data with
  | [v] =>
    let gi := n.GameInfo.getD {}
    if v = "B" ∨ v = "b" then
      GoOutcome.ok { n with GameInfo := some { gi with Player := Black } }
    else if v = "W" ∨ v = "w" then
      GoOutcome.ok { n with GameInfo := some { gi with Player := White } }
    else
      GoOutcome.err ("Prop PL has invalid value of " ++ v) { n with GameInfo := some gi }
  | _ =>
    GoOutcome.err ("PL property requires exactly 1 Value, but had " ++ toString data.length) n

/-- Embedding of the PL To closure (lines 214 to 227): empty fragment when
GameInfo is absent or the player is the unspecified sentinel; the
canonical letter for W or B; an error for any other stored value. -/
def PL_To (n : Node) : Except String String :=
  match n.GameInfo with
  | none => Except.ok ""
  | some gi =>
    if gi.Player = "" then Except.ok ""
    else if gi.Player = "W" ∨ gi.Player = "B" then
      Except.ok ("PL[" ++ gi.Player ++ "]")
    else Except.error ("prop PL can only have value W or B, but was " ++ gi.Player)

/-- Claim C1. The claim asserts that every raw komi value parsing to a
whole-point or half-point number, negative values such as -0.5 included,
decodes successfully. The code disagrees: the raw value -0.5 parses as the
number -1/2, which is a half-point value from the documented value set
(it is an integer plus one half), yet the decoder rejects it, because the
Go math.Modf fractional part carries the sign of its argument and -0.5
matches neither 0.5 nor 0.0. The matching positive value 0.5 decodes
successfully, isolating the sign as the trigger. -/
theorem km_decode_rejects_documented_negative_half :
    ParseFloat "-0.5" = some (mkRat (-1) 2) ∧
    (∃ k : Int, mkRat (-1) 2 = mkRat (2 * k + 1) 2) ∧
    KM_From emptyNode ["0.5"] =
      GoOutcome.ok { emptyNode with GameInfo := some { Komi := some (mkRat 1 2) } } ∧
    KM_From emptyNode ["-0.5"] = GoOutcome.err kmFracErr emptyNode := by
  refine ⟨by decide, ⟨-1, by decide⟩, by decide, by decide⟩

/-- Claim C2. The claim asserts that the komi decoder called with an empty
raw-value list returns a descriptive error rather than crashing. The code
disagrees: it reads the first raw value without checking the length, so
the call is a Go runtime index-out-of-range crash on every node. -/
theorem km_decode_empty_data_crashes (n : Node) :
    KM_From n [] =
      GoOutcome.crash "runtime error: index out of range [0] with length 0" := rfl

/-- Claim C3: for every integer s between 1 and 25, decoding the single raw
value s through the board-size converter on a fresh node succeeds, and
encoding the resulting node yields exactly the fragment SZ with s in
brackets. -/
theorem sz_roundtrip (s : Int) (h1 : 1 ≤ s) (h2 : s ≤ 25) :
    SZ_From emptyNode "SZ" [toString s] =
      GoOutcome.ok { emptyNode with GameInfo := some { Size := s } } ∧
    SZ_To { emptyNode with GameInfo := some { Size := s } } =
      Except.ok ("SZ[" ++ toString s ++ "]") := by
  interval_cases s <;> exact ⟨rfl, rfl⟩

/-- Witness for claim C3 at the concrete size 19. -/
theorem sz_roundtrip_witness :
    (1 : Int) ≤ 19 ∧ (19 : Int) ≤ 25 ∧
    (SZ_From emptyNode "SZ" [toString (19 : Int)] =
        GoOutcome.ok { emptyNode with GameInfo := some { Size := (19 : Int) } } ∧
      SZ_To { emptyNode with GameInfo := some { Size := (19 : Int) } } =
        Except.ok ("SZ[" ++ toString (19 : Int) ++ "]")) :=
  ⟨by norm_num, by norm_num, sz_roundtrip 19 (by norm_num) (by norm_num)⟩

/-- Claim C4: decoding the komi raw value 6.3 fails on the fractional-part
rule, while 6.5 and 6.0 decode into a fresh node and encode back exactly,
the rendering always carrying one digit after the decimal point. -/
theorem km_concrete_roundtrips :
    KM_From emptyNode ["6.3"] = GoOutcome.err kmFracErr emptyNode ∧
    (KM_From emptyNode ["6.5"] =
        GoOutcome.ok { emptyNode with GameInfo := some { Komi := some (mkRat 13 2) } } ∧
      KM_To { emptyNode with GameInfo := some { Komi := some (mkRat 13 2) } } =
        Except.ok "KM[6.5]") ∧
    (KM_From emptyNode ["6.0"] =
        GoOutcome.ok { emptyNode with GameInfo := some { Komi := some (mkRat 6 1) } } ∧
      KM_To { emptyNode with GameInfo := some { Komi := some (mkRat 6 1) } } =
        Except.ok "KM[6.0]") := by
  refine ⟨by decide, ⟨by decide, rfl⟩, ⟨by decide, rfl⟩⟩

/-- Claim C5: on a node that already holds a move, decoding either move
property code with any raw values fails with the duplicate-move message,
and the node carried by the error is the unchanged original. -/
theorem move_decode_duplicate_error (n : Node) (m : Move) (prop : String)
    (data : List String) (hp : prop = "B" ∨ prop = "W") (hm : n.Move = some m) :
    B_W_From n prop data = GoOutcome.err "found two moves on one node at move" n := by
  obtain ⟨p, m0, g⟩ := n
  change m0 = some m at hm
  subst hm
  rcases hp with h | h <;> subst h <;> rfl

/-- Witness for claim C5: a node holding a black pass move rejects a
subsequent white move. -/
theorem move_decode_duplicate_error_witness :
    B_W_From { emptyNode with Move := some { color := Black, point := none } } "W" ["dp"] =
      GoOutcome.err "found two moves on one node at move"
        { emptyNode with Move := some { color := Black, point := none } } :=
  move_decode_duplicate_error
    { emptyNode with Move := some { color := Black, point := none } }
    { color := Black, point := none } "W" ["dp"] (Or.inr rfl) rfl

/-- Claim C6: on a node with no move, decoding the black-move property with
zero raw values or with the single empty value succeeds and sets a black
pass move, and encoding that node yields exactly the code with empty
brackets. -/
theorem move_decode_pass_roundtrip (n : Node) (h : n.Move = none) :
    B_W_From n "B" [] =
      GoOutcome.ok { n with Move := some { color := Black, point := none } } ∧
    B_W_From n "B" [""] =
      GoOutcome.ok { n with Move := some { color := Black, point := none } } ∧
    B_W_To { n with Move := some { color := Black, point := none } } =
      Except.ok "B[]" := by
  obtain ⟨p, m0, g⟩ := n
  change m0 = none at h
  subst h
  exact ⟨rfl, rfl, rfl⟩

/-- Witness for claim C6 at the fresh node. -/
theorem move_decode_pass_roundtrip_witness :
    emptyNode.Move = none ∧
    (B_W_From emptyNode "B" [] =
        GoOutcome.ok { emptyNode with Move := some { color := Black, point := none } } ∧
      B_W_From emptyNode "B" [""] =
        GoOutcome.ok { emptyNode with Move := some { color := Black, point := none } } ∧
      B_W_To { emptyNode with Move := some { color := Black, point := none } } =
        Except.ok "B[]") :=
  ⟨rfl, move_decode_pass_roundtrip emptyNode rfl⟩

/-- Claim C7: placement decode appends the parsed placements to the node's
existing collection, so repeated calls accumulate; concretely, decoding
the black placements on points dd and pp and then the white placement on
point cc on one fresh node, then encoding, yields the black group first
and then the white group, each in original order. -/
theorem placements_append_and_roundtrip :
    (∀ (n : Node) (data : List String) (moves : List Move),
        ListFromSGFPoints Black data = Except.ok moves →
        AB_AW_From n "AB" data =
          GoOutcome.ok { n with Placements := n.Placements ++ moves }) ∧
    AB_AW_From emptyNode "AB" ["dd", "pp"] =
      GoOutcome.ok { emptyNode with Placements :=
        [{ color := Black, point := some (3, 3) },
         { color := Black, point := some (15, 15) }] } ∧
    AB_AW_From { emptyNode with Placements :=
        [{ color := Black, point := some (3, 3) },
         { color := Black, point := some (15, 15) }] } "AW" ["cc"] =
      GoOutcome.ok { emptyNode with Placements :=
        [{ color := Black, point := some (3, 3) },
         { color := Black, point := some (15, 15) },
         { color := White, point := some (2, 2) }] } ∧
    AB_AW_To { emptyNode with Placements :=
        [{ color := Black, point := some (3, 3) },
         { color := Black, point := some (15, 15) },
         { color := White, point := some (2, 2) }] } =
      Except.ok "AB[dd][pp]AW[cc]" := by
  refine ⟨?_, rfl, rfl, rfl⟩
  intro n data moves hmoves
  have h0 : AB_AW_From n "AB" data =
      match ListFromSGFPoints Black data with
      | Except.error e => GoOutcome.err e n
      | Except.ok moves =>
        GoOutcome.ok { n with Placements := n.Placements ++ moves } := rfl
  rw [h0, hmoves]

/-- Witness for claim C7: the general append component applied to a single
black placement on a fresh node. -/
theorem placements_append_and_roundtrip_witness :
    AB_AW_From emptyNode "AB" ["dd"] =
      GoOutcome.ok { emptyNode with Placements :=
        emptyNode.Placements ++ [{ color := Black, point := some (3, 3) }] } :=
  placements_append_and_roundtrip.1 emptyNode ["dd"]
    [{ color := Black, point := some (3, 3) }] rfl

/-- Claim C8: encoding a node whose GameInfo is absent yields an empty
fragment and no error for each of the three root-only properties. -/
theorem root_encode_empty_without_gameinfo (n : Node) (h : n.GameInfo = none) :
    SZ_To n = Except.ok "" ∧ KM_To n = Except.ok "" ∧ PL_To n = Except.ok "" := by
  obtain ⟨p, m0, g⟩ := n
  change g = none at h
  subst h
  exact ⟨rfl, rfl, rfl⟩

/-- Witness for claim C8 at the fresh node. -/
theorem root_encode_empty_without_gameinfo_witness :
    emptyNode.GameInfo = none ∧
    (SZ_To emptyNode = Except.ok "" ∧ KM_To emptyNode = Except.ok "" ∧
      PL_To emptyNode = Except.ok "") :=
  ⟨rfl, root_encode_empty_without_gameinfo emptyNode rfl⟩

/-- Claim C9: board-size decode fails with the arity error whenever the
raw-value list does not have exactly one element, with the integer-parse
error when the single value is not an integer, with the range error when
the parsed integer lies outside 1..25, and succeeds in every other case,
setting the size on a lazily created GameInfo. -/
theorem sz_decode_cases (n : Node) (data : List String) :
    (data.length ≠ 1 → SZ_From n "SZ" data = GoOutcome.err (szArityErr "SZ" data.length) n) ∧
    (∀ v, data = [v] → Atoi v = none →
      SZ_From n "SZ" data = GoOutcome.err (szParseErr "SZ" v) n) ∧
    (∀ v k, data = [v] → Atoi v = some k → (k < 1 ∨ k > 25) →
      SZ_From n "SZ" data = GoOutcome.err (szRangeErr "SZ" k) n) ∧
    (∀ v k, data = [v] → Atoi v = some k → 1 ≤ k → k ≤ 25 →
      SZ_From n "SZ" data =
        GoOutcome.ok { n with GameInfo := some { n.GameInfo.getD {} with Size := k } }) := by
  refine ⟨?_, ?_, ?_, ?_⟩
  · intro hlen
    rcases data with _ | ⟨v, _ | ⟨w, rest⟩⟩
    · rfl
    · exact absurd rfl hlen
    · rfl
  · intro v hd hA
    subst hd
    simp only [SZ_From, hA]
  · intro v k hd hA hk
    subst hd
    simp only [SZ_From, hA]
    rw [if_pos hk]
  · intro v k hd hA h1 h2
    subst hd
    simp only [SZ_From, hA]
    rw [if_neg (by omega)]

/-- Witness for claim C9: arity failure on the empty list, parse failure on
a non-numeric value and on a digit string overflowing the 64-bit int range
(Go strconv.Atoi returns ErrRange there, which the converter surfaces
through the same parse-error path), range failure on 26, success on 9. -/
theorem sz_decode_cases_witness :
    SZ_From emptyNode "SZ" [] = GoOutcome.err (szArityErr "SZ" 0) emptyNode ∧
    SZ_From emptyNode "SZ" ["abc"] = GoOutcome.err (szParseErr "SZ" "abc") emptyNode ∧
    SZ_From emptyNode "SZ" ["99999999999999999999"] =
      GoOutcome.err (szParseErr "SZ" "99999999999999999999") emptyNode ∧
    SZ_From emptyNode "SZ" ["26"] = GoOutcome.err (szRangeErr "SZ" 26) emptyNode ∧
    SZ_From emptyNode "SZ" ["9"] =
      GoOutcome.ok { emptyNode with GameInfo := some { Size := 9 } } :=
  ⟨(sz_decode_cases emptyNode []).1 (by decide),
   (sz_decode_cases emptyNode ["abc"]).2.1 "abc" rfl rfl,
   (sz_decode_cases emptyNode ["99999999999999999999"]).2.1
     "99999999999999999999" rfl (by decide),
   (sz_decode_cases emptyNode ["26"]).2.2.1 "26" 26 rfl rfl (by norm_num),
   (sz_decode_cases emptyNode ["9"]).2.2.2 "9" 9 rfl rfl (by norm_num) (by norm_num)⟩

/-- Claim C10: calling the player-to-move decoder with one raw value that
is none of the four accepted letters, on a node whose GameInfo is absent,
returns an error naming the value, yet the node carried by the error
already holds a freshly created empty GameInfo: the failing decode is not
atomic. -/
theorem pl_decode_invalid_value_not_atomic (n : Node) (v : String)
    (hg : n.GameInfo = none) (h1 : v ≠ "B") (h2 : v ≠ "b") (h3 : v ≠ "W") (h4 : v ≠ "w") :
    PL_From n [v] =
      GoOutcome.err ("Prop PL has invalid value of " ++ v)
        { n with GameInfo := some {} } := by
  obtain ⟨p, m0, g⟩ := n
  change g = none at hg
  subst hg
  simp [PL_From, h1, h2, h3, h4]

/-- Witness for claim C10 at the fresh node with the invalid value x. -/
theorem pl_decode_invalid_value_not_atomic_witness :
    PL_From emptyNode ["x"] =
      GoOutcome.err ("Prop PL has invalid value of " ++ "x")
        { emptyNode with GameInfo := some {} } :=
  pl_decode_invalid_value_not_atomic emptyNode "x" rfl
    (by decide) (by decide) (by decide) (by decide)

end Clamshell
